import Mathlib

/-!
Verification of the widget front-end slice of the Graphite editor:
the layout dispatcher (`WidgetLayout.vue`), the base field wrapper
(`FieldInput.vue`) and the text-input specialization (`TextInput.vue`).
Each Vue component is shallowly embedded as pure Lean functions over
explicit component-state records; DOM interactions and emitted events
are explicit inductive types.
-/

namespace Graphite

/-! ### Layout dispatcher (`WidgetLayout.vue`) -/

/-- Modelled from the spec: the `LayoutRow` descriptor type is imported from
`@/dispatcher/js-messages`, which is not among the visible sources.  The spec
describes a list of tagged "layout row" descriptors carrying a discriminant
tag that distinguishes the two row kinds; a row may also carry some other tag,
in which case it is of neither kind. -/
inductive RowTag
  | widgetRowTag
  | widgetSectionTag
  | otherTag (name : String)
deriving DecidableEq, Repr

/-- Modelled from the spec: a tagged layout row descriptor. -/
structure LayoutRow where
  tag : RowTag
deriving DecidableEq, Repr

/-- Modelled from the spec: `isWidgetRow` from `@/dispatcher/js-messages`
inspects the discriminant tag and recognises the widget-row kind. -/
def isWidgetRow (r : LayoutRow) : Bool :=
  match r.tag with
  | RowTag.widgetRowTag => true
  | _ => false

/-- Modelled from the spec: `isWidgetSection` from `@/dispatcher/js-messages`
inspects the discriminant tag and recognises the widget-section kind. -/
def isWidgetSection (r : LayoutRow) : Bool :=
  match r.tag with
  | RowTag.widgetSectionTag => true
  | _ => false

/-- The two row-kind components the dispatcher can select
(`WidgetRow.vue` and `WidgetSection.vue`). -/
inductive RowComponent
  | widgetRowComponent
  | widgetSectionComponent
deriving DecidableEq, Repr

/-- `layoutRowType` from `WidgetLayout.vue`: return the `WidgetRow` component
when `isWidgetRow` holds, the `WidgetSection` component when `isWidgetSection`
holds, and otherwise throw `Error("Layout row type does not exist")`.
Throwing is embedded as `Except.error` carrying the message. -/
def layoutRowType (layoutRow : LayoutRow) : Except String RowComponent :=
  if isWidgetRow layoutRow then Except.ok RowComponent.widgetRowComponent
  else if isWidgetSection layoutRow then Except.ok RowComponent.widgetSectionComponent
  else Except.error "Layout row type does not exist"

/-- The `layout` prop of `WidgetLayout.vue`: a list of rows plus the
`layout_target` field that the template forwards to every row component. -/
structure WidgetLayout where
  layout : List LayoutRow
  layout_target : String
deriving DecidableEq, Repr

/-- One `<component :is=... :widgetData=... :layoutTarget=...>` element as
produced by the template of `WidgetLayout.vue`. -/
structure RenderedComponent where
  comp : RowComponent
  widgetData : LayoutRow
  layoutTarget : String
deriving DecidableEq, Repr

/-- The `v-for` of the template of `WidgetLayout.vue`: render each row of the
list, in order, as the component chosen by `layoutRowType`, binding the row
itself as `widgetData` and the layout's `layout_target` as `layoutTarget`.
A row on which `layoutRowType` throws aborts the rendering with that error. -/
def renderRows (target : String) : List LayoutRow → Except String (List RenderedComponent)
  | [] => Except.ok []
  | r :: rs =>
    match layoutRowType r with
    | Except.error e => Except.error e
    | Except.ok c =>
      match renderRows target rs with
      | Except.error e => Except.error e
      | Except.ok rest =>
        Except.ok ({ comp := c, widgetData := r, layoutTarget := target } :: rest)

/-- The whole `WidgetLayout.vue` template applied to its `layout` prop. -/
def renderWidgetLayout (l : WidgetLayout) : Except String (List RenderedComponent) :=
  renderRows l.layout_target l.layout

/-! ### Theorems for the layout dispatcher claims -/

/-- Claim C1: for every layout row descriptor, the dispatcher selects one of
exactly two row-kind components by inspecting the discriminant tag: the
`WidgetRow` component when the row satisfies `isWidgetRow`, and the
`WidgetSection` component when it satisfies `isWidgetSection`; any component
it selects is one of those two. -/
theorem layout_dispatch_two_kinds (r : LayoutRow) :
    (isWidgetRow r = true → layoutRowType r = Except.ok RowComponent.widgetRowComponent)
  ∧ (isWidgetSection r = true → layoutRowType r = Except.ok RowComponent.widgetSectionComponent)
  ∧ (∀ c, layoutRowType r = Except.ok c →
      c = RowComponent.widgetRowComponent ∨ c = RowComponent.widgetSectionComponent) := by
  obtain ⟨tag⟩ := r
  cases tag <;> simp [layoutRowType, isWidgetRow, isWidgetSection]

/-- Witness for C1 at the two concrete row kinds. -/
theorem layout_dispatch_two_kinds_witness :
    layoutRowType { tag := RowTag.widgetRowTag } = Except.ok RowComponent.widgetRowComponent
  ∧ layoutRowType { tag := RowTag.widgetSectionTag }
      = Except.ok RowComponent.widgetSectionComponent :=
  ⟨(layout_dispatch_two_kinds { tag := RowTag.widgetRowTag }).1 rfl,
   (layout_dispatch_two_kinds { tag := RowTag.widgetSectionTag }).2.1 rfl⟩

/-- Claim C7: `layoutRowType` throws `Error("Layout row type does not exist")`
on every row satisfying neither predicate, and returns a component if and only
if the row satisfies `isWidgetRow` or `isWidgetSection`. -/
theorem layout_row_type_total (r : LayoutRow) :
    (isWidgetRow r = false → isWidgetSection r = false →
        layoutRowType r = Except.error "Layout row type does not exist")
  ∧ ((∃ c, layoutRowType r = Except.ok c) ↔
        (isWidgetRow r = true ∨ isWidgetSection r = true)) := by
  obtain ⟨tag⟩ := r
  cases tag <;> simp [layoutRowType, isWidgetRow, isWidgetSection]

/-- Helper: characterisation of a successful run of `renderRows`. -/
theorem renderRows_ok (target : String) :
    ∀ (rows : List LayoutRow) (out : List RenderedComponent),
      renderRows target rows = Except.ok out →
      out.map RenderedComponent.widgetData = rows
      ∧ ∀ rc ∈ out, rc.layoutTarget = target
          ∧ layoutRowType rc.widgetData = Except.ok rc.comp := by
  intro rows
  induction rows with
  | nil =>
    intro out h
    simp [renderRows] at h
    subst h
    simp
  | cons r rs ih =>
    intro out h
    simp only [renderRows] at h
    cases hr : layoutRowType r with
    | error e => rw [hr] at h; exact absurd h (by simp)
    | ok c =>
      rw [hr] at h
      cases hrest : renderRows target rs with
      | error e => rw [hrest] at h; exact absurd h (by simp)
      | ok rest =>
        rw [hrest] at h
        obtain ⟨hmap, hmem⟩ := ih rest hrest
        cases h
        refine ⟨by simp [hmap], ?_⟩
        intro rc hrc
        rcases List.mem_cons.mp hrc with hhead | htail
        · subst hhead; exact ⟨rfl, hr⟩
        · exact hmem rc htail

/-- Claim C2: a successful render of a layout maps the descriptor list to
components one-to-one and in order: the rendered elements' `widgetData`
fields are exactly the list `layout.layout`, there is exactly one element per
descriptor, and every element carries the layout's `layout_target` and the
component `layoutRowType` selects for its descriptor. -/
theorem render_widget_layout_one_to_one (l : WidgetLayout)
    (out : List RenderedComponent) (h : renderWidgetLayout l = Except.ok out) :
    out.map RenderedComponent.widgetData = l.layout
  ∧ out.length = l.layout.length
  ∧ ∀ rc ∈ out, rc.layoutTarget = l.layout_target
      ∧ layoutRowType rc.widgetData = Except.ok rc.comp := by
  obtain ⟨hmap, hmem⟩ := renderRows_ok l.layout_target l.layout out h
  refine ⟨hmap, ?_, hmem⟩
  calc out.length = (out.map RenderedComponent.widgetData).length := by simp
    _ = l.layout.length := by rw [hmap]

/-- A concrete two-row layout used to witness C2. -/
def sampleLayout : WidgetLayout :=
  { layout := [{ tag := RowTag.widgetRowTag }, { tag := RowTag.widgetSectionTag }],
    layout_target := "DocumentToolbar" }

/-- The rendering of `sampleLayout`. -/
def sampleRendered : List RenderedComponent :=
  [{ comp := RowComponent.widgetRowComponent,
     widgetData := { tag := RowTag.widgetRowTag },
     layoutTarget := "DocumentToolbar" },
   { comp := RowComponent.widgetSectionComponent,
     widgetData := { tag := RowTag.widgetSectionTag },
     layoutTarget := "DocumentToolbar" }]

/-- Witness for C2 at the concrete two-row layout. -/
theorem render_widget_layout_one_to_one_witness :
    sampleRendered.map RenderedComponent.widgetData = sampleLayout.layout
  ∧ sampleRendered.length = sampleLayout.layout.length
  ∧ ∀ rc ∈ sampleRendered, rc.layoutTarget = sampleLayout.layout_target
      ∧ layoutRowType rc.widgetData = Except.ok rc.comp :=
  render_widget_layout_one_to_one sampleLayout sampleRendered rfl

/-- Witness for C7 at a concrete row of neither kind. -/
theorem layout_row_type_total_witness :
    layoutRowType { tag := RowTag.otherTag "unknown" }
      = Except.error "Layout row type does not exist" :=
  (layout_row_type_total { tag := RowTag.otherTag "unknown" }).1 rfl rfl

/-! ### Base field wrapper (`FieldInput.vue`) -/

/-- A keyboard key as discriminated by the template's `keydown` modifiers. -/
inductive Key
  | enter
  | escape
  | otherKey (name : String)
deriving DecidableEq, Repr

/-- A DOM interaction with the `<input>` element of `FieldInput.vue`. -/
inductive DomEvent
  | focus
  | blur
  | change
  | keydown (k : Key)
  | input (s : String)
deriving DecidableEq, Repr

/-- An event emitted by `FieldInput.vue` (its `emits` declaration). -/
inductive FieldEmit
  | updateValue (s : String)
  | textFocused
  | textChanged
  | cancelTextChange
deriving DecidableEq, Repr

/-- The event bindings of the `<input>` element of `FieldInput.vue`:
`@focus` emits `textFocused`; `@blur`, `@change` and `@keydown.enter` emit
`textChanged`; `@keydown.esc` emits `cancelTextChange`; typing (the `input`
event) drives `v-model`, whose `inputValue` setter emits `update:value`
with the typed string. -/
def fieldInputHandle : DomEvent → List FieldEmit
  | DomEvent.focus => [FieldEmit.textFocused]
  | DomEvent.blur => [FieldEmit.textChanged]
  | DomEvent.change => [FieldEmit.textChanged]
  | DomEvent.keydown Key.enter => [FieldEmit.textChanged]
  | DomEvent.keydown Key.escape => [FieldEmit.cancelTextChange]
  | DomEvent.keydown (Key.otherKey _) => []
  | DomEvent.input s => [FieldEmit.updateValue s]

/-- The props of `FieldInput.vue`. -/
structure FieldInputProps where
  value : String
  label : Option String
  spellcheck : Bool
  disabled : Bool
deriving DecidableEq, Repr

/-- The `inputValue` computed getter of `FieldInput.vue`: the `value` prop. -/
def inputValueGet (p : FieldInputProps) : String := p.value

/-- The `inputValue` computed setter of `FieldInput.vue`: it mutates nothing
and emits `update:value` carrying the new string. -/
def inputValueSet (p : FieldInputProps) (v : String) :
    FieldInputProps × List FieldEmit :=
  (p, [FieldEmit.updateValue v])

/-! ### Text-input specialization (`TextInput.vue`) -/

/-- The state of the underlying `HTMLInputElement` that the handlers of
`TextInput.vue` reach through `$refs.fieldInput.$refs.input`. -/
structure InputElement where
  value : String
  focused : Bool
  selectionStart : Nat
  selectionEnd : Nat
deriving DecidableEq, Repr

/-- `HTMLInputElement.select()`: select the entire current value. -/
def InputElement.select (el : InputElement) : InputElement :=
  { el with selectionStart := 0, selectionEnd := el.value.length }

/-- `HTMLInputElement.blur()`: defocus the element. -/
def InputElement.blur (el : InputElement) : InputElement :=
  { el with focused := false }

/-- The state of the `TextInput.vue` component: its `value` prop, the
`editing` data flag, and the underlying input element. -/
structure TextInput where
  value : String
  editing : Bool
  element : InputElement
deriving DecidableEq, Repr

/-- The `text` computed getter of `TextInput.vue`: the `value` prop. -/
def textGet (c : TextInput) : String := c.value

/-- `onTextFocused` from `TextInput.vue`: set `editing` to `true`, write the
current text into the input element, then select it all. -/
def onTextFocused (c : TextInput) : TextInput :=
  let c := { c with editing := true }
  let el := { c.element with value := textGet c }
  { c with element := el.select }

/-- `onCancelTextChange` from `TextInput.vue`: set `editing` to `false`, then
blur the input element. -/
def onCancelTextChange (c : TextInput) : TextInput :=
  let c := { c with editing := false }
  { c with element := c.element.blur }

/-- `onTextChanged` from `TextInput.vue`: run `onCancelTextChange` when
`editing` is set, otherwise do nothing. -/
def onTextChanged (c : TextInput) : TextInput :=
  if c.editing then onCancelTextChange c else c

/-- `data()` of `TextInput.vue`: the `editing` flag starts out `false`. -/
def initialTextInput (v : String) (el : InputElement) : TextInput :=
  { value := v, editing := false, element := el }

/-! ### Theorems for the field-input claims -/

/-- Claim C3: the base field wrapper emits exactly the focus/change/cancel
surface: `textFocused` exactly on focus; `textChanged` exactly on blur, on the
`change` event and on the Enter key; `cancelTextChange` exactly on Escape; and
none of these three events on any other interaction. -/
theorem field_input_event_surface (e : DomEvent) :
    (FieldEmit.textFocused ∈ fieldInputHandle e ↔ e = DomEvent.focus)
  ∧ (FieldEmit.textChanged ∈ fieldInputHandle e ↔
      (e = DomEvent.blur ∨ e = DomEvent.change ∨ e = DomEvent.keydown Key.enter))
  ∧ (FieldEmit.cancelTextChange ∈ fieldInputHandle e ↔
      e = DomEvent.keydown Key.escape) := by
  cases e with
  | focus => simp [fieldInputHandle]
  | blur => simp [fieldInputHandle]
  | change => simp [fieldInputHandle]
  | keydown k => cases k <;> simp [fieldInputHandle]
  | input s => simp [fieldInputHandle]

/-- Claim C4: the focus handler of the text-input specialization enters edit
mode and selects the entire current text, having first written the current
value into the element: afterwards `editing` is `true`, the element's value is
the `value` prop, and the selection spans that whole string. -/
theorem on_text_focused_selects_all (c : TextInput) :
    (onTextFocused c).editing = true
  ∧ (onTextFocused c).element.value = c.value
  ∧ (onTextFocused c).element.selectionStart = 0
  ∧ (onTextFocused c).element.selectionEnd = c.value.length := by
  simp [onTextFocused, textGet, InputElement.select]

/-- Claim C5: commit and cancel both terminate edit mode: running
`onTextChanged` in a state with `editing = true`, or `onCancelTextChange` in
any state, leaves `editing = false` and the input element blurred. -/
theorem commit_cancel_terminate_editing (c : TextInput) :
    (c.editing = true →
        (onTextChanged c).editing = false ∧ (onTextChanged c).element.focused = false)
  ∧ ((onCancelTextChange c).editing = false
        ∧ (onCancelTextChange c).element.focused = false) := by
  constructor
  · intro h
    simp [onTextChanged, h, onCancelTextChange, InputElement.blur]
  · simp [onCancelTextChange, InputElement.blur]

/-- A concrete mid-edit state used to witness the text-input claims. -/
def sampleEditingState : TextInput :=
  { value := "abc", editing := true,
    element := { value := "abc", focused := true, selectionStart := 0, selectionEnd := 3 } }

/-- Witness for C5 at a concrete mid-edit state. -/
theorem commit_cancel_terminate_editing_witness :
    (onTextChanged sampleEditingState).editing = false
  ∧ (onTextChanged sampleEditingState).element.focused = false :=
  (commit_cancel_terminate_editing sampleEditingState).1 rfl

/-! ### Event traces over the text-input handlers -/

/-- One occurrence of a handler of `TextInput.vue`: a focus event, a commit
(`textChanged`) event, or a cancel (`cancelTextChange`) event. -/
inductive TIEvent
  | focusEv
  | commitEv
  | cancelEv
deriving DecidableEq, Repr

/-- Run the handler an event dispatches to. -/
def stepEvent (c : TextInput) : TIEvent → TextInput
  | TIEvent.focusEv => onTextFocused c
  | TIEvent.commitEv => onTextChanged c
  | TIEvent.cancelEv => onCancelTextChange c

/-- Run a whole trace of events from a starting state. -/
def runEvents (c : TextInput) (evs : List TIEvent) : TextInput :=
  evs.foldl stepEvent c

/-- Helper: a trace splits at its final event. -/
theorem runEvents_append (c : TextInput) (evs : List TIEvent) (e : TIEvent) :
    runEvents c (evs ++ [e]) = stepEvent (runEvents c evs) e := by
  simp [runEvents]

/-- Helper: a commit event always leaves `editing` cleared. -/
theorem stepEvent_commit_editing (c : TextInput) :
    (stepEvent c TIEvent.commitEv).editing = false := by
  cases h : c.editing <;>
    simp [stepEvent, onTextChanged, h, onCancelTextChange]

/-- Helper: a cancel event always leaves `editing` cleared. -/
theorem stepEvent_cancel_editing (c : TextInput) :
    (stepEvent c TIEvent.cancelEv).editing = false := by
  simp [stepEvent, onCancelTextChange]

/-- Helper: when a trace ends with `editing` set, either it was set at the
start and no commit or cancel occurred, or the trace contains a focus event
followed by no commit and no cancel. -/
theorem runEvents_editing_interval (evs : List TIEvent) :
    ∀ c : TextInput, (runEvents c evs).editing = true →
      (c.editing = true ∧ TIEvent.commitEv ∉ evs ∧ TIEvent.cancelEv ∉ evs)
      ∨ ∃ pre post, evs = pre ++ TIEvent.focusEv :: post
          ∧ TIEvent.commitEv ∉ post ∧ TIEvent.cancelEv ∉ post := by
  induction evs using List.reverseRecOn with
  | nil =>
    intro c h
    exact Or.inl ⟨h, by simp, by simp⟩
  | append_singleton evs e ih =>
    intro c h
    rw [runEvents_append] at h
    cases e with
    | focusEv =>
      exact Or.inr ⟨evs, [], by simp, by simp, by simp⟩
    | commitEv =>
      rw [stepEvent_commit_editing] at h
      exact absurd h (by simp)
    | cancelEv =>
      rw [stepEvent_cancel_editing] at h
      exact absurd h (by simp)

/-- Claim C6: edit-mode tracking is sound as a state machine: `editing` starts
`false`; a transition can set `editing` only through the focus handler; a
transition out of `editing = true` to `false` is a commit or a cancel; commit
and cancel always leave `editing` cleared; hence a trace from a non-editing
state that ends with `editing` set contains a focus event with no commit and
no cancel after it. -/
theorem editing_state_machine (v : String) (el : InputElement)
    (c0 : TextInput) (evs : List TIEvent)
    (hc0 : c0.editing = false) (hrun : (runEvents c0 evs).editing = true) :
    (initialTextInput v el).editing = false
  ∧ (∀ c e, (stepEvent c e).editing = true → c.editing = true ∨ e = TIEvent.focusEv)
  ∧ (∀ c e, c.editing = true → (stepEvent c e).editing = false →
        e = TIEvent.commitEv ∨ e = TIEvent.cancelEv)
  ∧ (∀ c, (stepEvent c TIEvent.commitEv).editing = false
        ∧ (stepEvent c TIEvent.cancelEv).editing = false)
  ∧ (∃ pre post, evs = pre ++ TIEvent.focusEv :: post
        ∧ TIEvent.commitEv ∉ post ∧ TIEvent.cancelEv ∉ post) := by
  refine ⟨rfl, ?_, ?_, ?_, ?_⟩
  · intro c e h
    cases e with
    | focusEv => exact Or.inr rfl
    | commitEv => rw [stepEvent_commit_editing] at h; exact absurd h (by simp)
    | cancelEv => rw [stepEvent_cancel_editing] at h; exact absurd h (by simp)
  · intro c e hc hstep
    cases e with
    | focusEv =>
      rw [show (stepEvent c TIEvent.focusEv).editing = true from rfl] at hstep
      exact absurd hstep (by simp)
    | commitEv => exact Or.inl rfl
    | cancelEv => exact Or.inr rfl
  · intro c
    exact ⟨stepEvent_commit_editing c, stepEvent_cancel_editing c⟩
  · rcases runEvents_editing_interval evs c0 hrun with ⟨hedit, _, _⟩ | hfound
    · rw [hc0] at hedit; exact absurd hedit (by simp)
    · exact hfound

/-- A concrete blurred input element used in witnesses. -/
def sampleElement : InputElement :=
  { value := "", focused := false, selectionStart := 0, selectionEnd := 0 }

/-- Witness for C6 at the one-event trace consisting of a focus event. -/
theorem editing_state_machine_witness :
    (initialTextInput "a" sampleElement).editing = false
  ∧ (∀ c e, (stepEvent c e).editing = true → c.editing = true ∨ e = TIEvent.focusEv)
  ∧ (∀ c e, c.editing = true → (stepEvent c e).editing = false →
        e = TIEvent.commitEv ∨ e = TIEvent.cancelEv)
  ∧ (∀ c, (stepEvent c TIEvent.commitEv).editing = false
        ∧ (stepEvent c TIEvent.cancelEv).editing = false)
  ∧ (∃ pre post, [TIEvent.focusEv] = pre ++ TIEvent.focusEv :: post
        ∧ TIEvent.commitEv ∉ post ∧ TIEvent.cancelEv ∉ post) :=
  editing_state_machine "a" sampleElement (initialTextInput "a" sampleElement)
    [TIEvent.focusEv] rfl rfl

/-- Claim C8: the commit handler is a no-op outside edit mode, which makes
cancellation idempotent under the `textChanged` event its own blur call
triggers: `onTextChanged` fixes every state with `editing = false`, and
`onTextChanged` after `onCancelTextChange` equals `onCancelTextChange` alone. -/
theorem commit_noop_outside_editing (c : TextInput) :
    (c.editing = false → onTextChanged c = c)
  ∧ onTextChanged (onCancelTextChange c) = onCancelTextChange c := by
  constructor
  · intro h
    simp [onTextChanged, h]
  · simp [onTextChanged, onCancelTextChange]

/-- The props of `TextInput.vue`. -/
structure TextInputProps where
  value : String
  label : Option String
  disabled : Bool
deriving DecidableEq, Repr

/-- The prop bindings of the template of `TextInput.vue` on its `FieldInput`:
`v-model:value` binds the `text` getter (the `value` prop), `:label` and
`:disabled` pass through, and `:spellcheck` is hard-wired to `true`. -/
def textInputFieldProps (t : TextInputProps) : FieldInputProps :=
  { value := t.value, label := t.label, spellcheck := true, disabled := t.disabled }

/-- The `text` computed setter of `TextInput.vue`: it mutates nothing and
re-emits `update:value` with the string unchanged. -/
def textSet (t : TextInputProps) (v : String) : TextInputProps × List FieldEmit :=
  (t, [FieldEmit.updateValue v])

/-- The `v-model:value` wiring of `TextInput.vue`: every `update:value` event
coming out of the `FieldInput` runs the `text` setter; the named events go to
the dedicated handlers instead and produce no `update:value`. -/
def forwardFieldEmit (acc : TextInputProps × List FieldEmit) (e : FieldEmit) :
    TextInputProps × List FieldEmit :=
  match e with
  | FieldEmit.updateValue v =>
    let r := textSet acc.1 v
    (r.1, acc.2 ++ r.2)
  | _ => acc

/-- The whole typing chain: the user types `s` into the `<input>`; `v-model`
runs the `inputValue` setter of `FieldInput.vue`; the resulting events are
forwarded through `v-model:value` to the `text` setter of `TextInput.vue`.
Returns the final field props, the final text-input props, and the
`update:value` events reaching the text input's own parent. -/
def typeText (t : TextInputProps) (s : String) :
    FieldInputProps × TextInputProps × List FieldEmit :=
  let pe := inputValueSet (textInputFieldProps t) s
  let te := pe.2.foldl forwardFieldEmit (t, [])
  (pe.1, te.1, te.2)

/-- Claim C9: neither component mutates its `value` prop.  Typing `s` leaves
the field props and the text-input props unchanged and delivers to the parent
exactly one `update:value` event carrying `s` unchanged; the base setter alone
mutates nothing and emits exactly the typed string; `label`, `disabled` and
`value` pass through the template unmodified; and no text-input handler ever
changes the `value` prop. -/
theorem value_prop_immutable (t : TextInputProps) (p : FieldInputProps)
    (s : String) (c : TextInput) :
    typeText t s = (textInputFieldProps t, t, [FieldEmit.updateValue s])
  ∧ (inputValueSet p s).1 = p
  ∧ (inputValueSet p s).2 = [FieldEmit.updateValue s]
  ∧ (textInputFieldProps t).value = t.value
  ∧ (textInputFieldProps t).label = t.label
  ∧ (textInputFieldProps t).disabled = t.disabled
  ∧ (onTextFocused c).value = c.value
  ∧ (onTextChanged c).value = c.value
  ∧ (onCancelTextChange c).value = c.value := by
  refine ⟨rfl, rfl, rfl, rfl, rfl, rfl, rfl, ?_, rfl⟩
  cases h : c.editing <;> simp [onTextChanged, h, onCancelTextChange]

/-- Witness for C8 at a concrete non-editing state. -/
theorem commit_noop_outside_editing_witness :
    onTextChanged (initialTextInput "a" sampleElement)
      = initialTextInput "a" sampleElement :=
  (commit_noop_outside_editing (initialTextInput "a" sampleElement)).1 rfl

end Graphite
